import Mathlib

/-!
Shallow embedding of the `Animator` class (text-prompt based animation
system, `js/animator.js`) together with proofs about its prompt resolver,
playback state machine and per-frame animation evaluation.

Numbers are modelled as rationals.  The transcendental functions
(`Math.sin`, `Math.cos`, `Math.PI`) and the random source (`Math.random`)
are abstracted into a `MathOracle` parameter; `Math.random` is modelled as
an indexed stream, with the next index threaded through the animator
state.  JS objects used as string-keyed dictionaries (`this.animations`,
`this.aliases`) are modelled as insertion-ordered lists, and the JS
truthiness checks on bracket lookups include the inherited
`Object.prototype` properties that an object literal exposes through its
prototype chain.
-/

namespace Animator3D

/-- A 3-component vector, used for position, rotation (Euler) and scale. -/
structure Vec3 where
  x : ℚ
  y : ℚ
  z : ℚ
deriving DecidableEq, Repr

/-- A model transform: position, rotation and scale. -/
structure Transform where
  position : Vec3
  rotation : Vec3
  scale : Vec3
deriving DecidableEq, Repr

/-- Abstraction of the math library used by the animations: `Math.sin`,
`Math.cos`, `Math.PI`, and `Math.random` modelled as an indexed stream of
values. -/
structure MathOracle where
  sin : ℚ → ℚ
  cos : ℚ → ℚ
  pi : ℚ
  random : ℕ → ℚ

/-- The 32 animation methods bound into the `this.animations` registry. -/
inductive AnimId where
  | rotate | spin | roll | flip
  | bounce | float | jump | hop | levitate
  | pulse | breathe | heartbeat | grow | shrink
  | shake | wave | swing | sway | wobble
  | walk | run | dance | march | strut
  | spiral | orbit | fly | zigzag | pendulum | tornado
  | earthquake | crazy
deriving DecidableEq, Repr

/-- The registry `this.animations`, a string-keyed dictionary from id to
bound method, in insertion order (source lines 18-59). -/
def animTable : List (String × AnimId) :=
  [("rotate", .rotate), ("spin", .spin), ("roll", .roll), ("flip", .flip),
   ("bounce", .bounce), ("float", .float), ("jump", .jump), ("hop", .hop),
   ("levitate", .levitate),
   ("pulse", .pulse), ("breathe", .breathe), ("heartbeat", .heartbeat),
   ("grow", .grow), ("shrink", .shrink),
   ("shake", .shake), ("wave", .wave), ("swing", .swing), ("sway", .sway),
   ("wobble", .wobble),
   ("walk", .walk), ("run", .run), ("dance", .dance), ("march", .march),
   ("strut", .strut),
   ("spiral", .spiral), ("orbit", .orbit), ("fly", .fly), ("zigzag", .zigzag),
   ("pendulum", .pendulum), ("tornado", .tornado),
   ("earthquake", .earthquake), ("crazy", .crazy)]

/-- The registry keys (`Object.keys(this.animations)`), in insertion
order. -/
def animationIds : List String :=
  animTable.map Prod.fst

/-- The alias table `this.aliases`, phrase to canonical id, in insertion
order (source lines 64-89). -/
def aliases : List (String × String) :=
  [("rotating", "rotate"), ("turn", "rotate"), ("turning", "rotate"),
   ("spinning", "spin"), ("twirl", "spin"),
   ("bouncing", "bounce"), ("boing", "bounce"),
   ("floating", "float"), ("hover", "float"), ("hovering", "float"),
   ("pulsing", "pulse"), ("throb", "pulse"),
   ("waving", "wave"),
   ("shaking", "shake"), ("vibrate", "shake"), ("vibrating", "shake"),
   ("swinging", "swing"),
   ("rolling", "roll"),
   ("flipping", "flip"),
   ("wobbling", "wobble"),
   ("jumping", "jump"), ("leap", "jump"),
   ("walking", "walk"), ("stepping", "walk"),
   ("running", "run"), ("jog", "run"), ("jogging", "run"), ("sprint", "run"),
   ("dancing", "dance"), ("boogie", "dance"), ("groove", "dance"),
   ("breathing", "breathe"),
   ("flying", "fly"), ("soar", "fly"), ("soaring", "fly"), ("glide", "fly"),
   ("spiraling", "spiral"), ("corkscrew", "spiral"),
   ("orbiting", "orbit"), ("circle", "orbit"), ("circling", "orbit"),
   ("hopping", "hop"), ("skip", "hop"),
   ("marching", "march"), ("parade", "march"),
   ("strutting", "strut"),
   ("swaying", "sway"), ("rock", "sway"),
   ("levitating", "levitate"), ("rise", "levitate"),
   ("zig-zag", "zigzag"), ("snake", "zigzag"),
   ("wild", "crazy"), ("random", "crazy"), ("chaos", "crazy")]

/-- `pat` occurs as a contiguous sublist of `s`. -/
def infixOf : List Char → List Char → Bool
  | pat, [] => pat.isEmpty
  | pat, c :: rest => pat.isPrefixOf (c :: rest) || infixOf pat rest

/-- JS `s.includes(pat)`: substring containment. -/
def containsSub (s pat : String) : Bool :=
  infixOf pat.data s.data

/-- JS `toLowerCase` on one character.  The id, alias and inherited
property tables are pure ASCII, so only case mappings producing ASCII
characters can affect resolution: these are A-Z and the Kelvin sign
U+212A (to k).  The sole remaining default full mapping that emits an
ASCII character, dotted capital I U+0130 to i followed by combining
U+0307, cannot complete any comparison with the tables (no table entry
ends in i, and the combining dot separates the i from any following
character), and mappings between non-ASCII characters cannot touch an
ASCII comparison at all, so both are omitted without changing any
resolution outcome. -/
def toLowerChar (c : Char) : Char :=
  if 65 ≤ c.toNat ∧ c.toNat ≤ 90 then Char.ofNat (c.toNat + 32)
  else if c.toNat = 0x212A then Char.ofNat 107
  else c

/-- The exact character set removed by JS `trim`: ECMAScript WhiteSpace
(TAB, VT, FF, SP, NBSP, ZWNBSP and the Space_Separator category) and
LineTerminator (LF, CR, LS, PS). -/
def isWs (c : Char) : Bool :=
  c.toNat == 0x20 || c.toNat == 0x09 || c.toNat == 0x0A || c.toNat == 0x0D ||
  c.toNat == 0x0B || c.toNat == 0x0C || c.toNat == 0xA0 || c.toNat == 0x1680 ||
  (0x2000 ≤ c.toNat && c.toNat ≤ 0x200A) || c.toNat == 0x2028 ||
  c.toNat == 0x2029 || c.toNat == 0x202F || c.toNat == 0x205F ||
  c.toNat == 0x3000 || c.toNat == 0xFEFF

/-- Drop whitespace from both ends. -/
def trimWs (l : List Char) : List Char :=
  ((l.dropWhile isWs).reverse.dropWhile isWs).reverse

/-- JS `prompt.toLowerCase().trim()`. -/
def lowerTrim (s : String) : String :=
  String.mk (trimWs (s.data.map toLowerChar))

/-- The own property names of `Object.prototype`, with their exact JS
casing.  A bracket lookup on an object literal that misses every own key
continues along the prototype chain and finds these; every one of them
holds a truthy value on a plain object (eleven are functions, and the
`__proto__` accessor yields the `Object.prototype` object itself).
Since `parsePrompt` lowercases its input first, only the all-lowercase
names `constructor` and `__proto__` are reachable. -/
def objectProtoKeys : List String :=
  ["constructor", "hasOwnProperty", "isPrototypeOf", "propertyIsEnumerable",
   "toLocaleString", "toString", "valueOf", "__defineGetter__",
   "__defineSetter__", "__lookupGetter__", "__lookupSetter__", "__proto__"]

/-- JS truthiness of `obj[key]` for an object literal whose own keys are
`own` and whose own values are all truthy (every registry value is a
bound function, every alias value a nonempty string): the lookup is
truthy iff `key` is an own key or an inherited `Object.prototype`
property. -/
def jsLookupTruthy (own : List String) (key : String) : Bool :=
  own.contains key || objectProtoKeys.contains key

/-- `Animator.parsePrompt` (source lines 115-127): lowercase and trim the
prompt, then try exact id, exact alias, alias-phrase substring (alias
insertion order), id substring (registry insertion order), else none.
The first step is the JS truthiness check `if (this.animations[p])`,
which also hits the inherited `Object.prototype` properties, so the
prompts `constructor` and `__proto__` resolve to themselves.  The second
step's truthiness check `if (this.aliases[p])` is modelled by the own-key
lookup alone: any inherited hit there would already have been returned
by the first step, since both objects inherit the same properties. -/
def parsePrompt (prompt : String) : Option String :=
  if jsLookupTruthy animationIds (lowerTrim prompt) then some (lowerTrim prompt)
  else
    match aliases.lookup (lowerTrim prompt) with
    | some target => some target
    | none =>
      match aliases.find? (fun p => containsSub (lowerTrim prompt) p.1) with
      | some p => some p.2
      | none =>
        match animationIds.find? (fun a => containsSub (lowerTrim prompt) a) with
        | some a => some a
        | none => none

/-- Resolution algorithm as worded by the specification (section 4.1):
case-insensitive, input trimmed of surrounding whitespace, then in strict
priority order: (1) exact match against the canonical id set, (2) exact
match against the alias table, (3) first alias in insertion order whose
phrase occurs in the input as a substring, (4) first canonical id in
registry insertion order occurring as a substring, (5) none. -/
def resolveSpec (input : String) : Option String :=
  if lowerTrim input ∈ animationIds then
    some (lowerTrim input)
  else if (aliases.lookup (lowerTrim input)).isSome then
    aliases.lookup (lowerTrim input)
  else if h3 : (aliases.find? (fun p => containsSub (lowerTrim input) p.1)).isSome then
    some ((aliases.find? (fun p => containsSub (lowerTrim input) p.1)).get h3).2
  else if h4 : (animationIds.find? (fun a => containsSub (lowerTrim input) a)).isSome then
    some ((animationIds.find? (fun a => containsSub (lowerTrim input) a)).get h4)
  else
    none

/-! ### Animation functions

Each `animateXxx` mirrors the source method of the same name.  They take
the oracle, the elapsed time `t`, the saved rest pose `init`
(`this.initialState`) and the model's current transform `m`
(`this.model`), and return the model's new transform.  The source methods
mutate only the fields they assign; unassigned fields keep their current
values, which the record updates below reproduce.  `animateEarthquake`
additionally consumes three values from the random stream. -/

/-- JS `a % b` (remainder with the sign of the dividend, truncated
division), used by `animateJump` for `t % (Math.PI * 2)`. -/
def jsMod (a b : ℚ) : ℚ :=
  a - b * ((Int.tdiv (a / b).num (a / b).den : ℤ) : ℚ)

def animateRotate (M : MathOracle) (t : ℚ) (init m : Transform) : Transform :=
  { m with rotation := { m.rotation with y := init.rotation.y + t } }

def animateSpin (M : MathOracle) (t : ℚ) (init m : Transform) : Transform :=
  { m with rotation := { m.rotation with y := init.rotation.y + t * 4 } }

def animateRoll (M : MathOracle) (t : ℚ) (init m : Transform) : Transform :=
  { m with rotation := { m.rotation with x := init.rotation.x + t * 2 } }

def animateFlip (M : MathOracle) (t : ℚ) (init m : Transform) : Transform :=
  { m with
    rotation := { m.rotation with x := init.rotation.x + t * 2 },
    position := { m.position with y := init.position.y + |M.sin (t * 2)| * 0.3 } }

def animateBounce (M : MathOracle) (t : ℚ) (init m : Transform) : Transform :=
  { m with position := { m.position with y := init.position.y + |M.sin (t * 4)| * 0.5 } }

def animateFloat (M : MathOracle) (t : ℚ) (init m : Transform) : Transform :=
  { m with position := { m.position with y := init.position.y + M.sin (t * 1.5) * 0.2 + 0.1 } }

def animateJump (M : MathOracle) (t : ℚ) (init m : Transform) : Transform :=
  let cycle := jsMod t (M.pi * 2)
  let height := max 0 (M.sin (cycle * 2)) * 1.0
  let squash := 1 - |M.sin (cycle * 2)| * 0.15
  let stretch := 1 + |M.sin (cycle * 2)| * 0.15
  let base := init.scale.x
  { m with
    position := { m.position with y := init.position.y + height },
    scale := ⟨base * squash, base * stretch, base * squash⟩ }

def animateHop (M : MathOracle) (t : ℚ) (init m : Transform) : Transform :=
  { m with
    position := { m.position with
      y := init.position.y + |M.sin (t * 5)| * 0.3,
      x := init.position.x + M.sin (t * 2.5) * 0.2 } }

def animateLevitate (M : MathOracle) (t : ℚ) (init m : Transform) : Transform :=
  { m with
    position := { m.position with y := init.position.y + (M.sin (t * 0.5) * 0.3 + 0.5) },
    rotation := { m.rotation with y := init.rotation.y + M.sin (t * 3) * 0.02 } }

def animatePulse (M : MathOracle) (t : ℚ) (init m : Transform) : Transform :=
  let s := init.scale.x * (1 + M.sin (t * 4) * 0.15)
  { m with scale := ⟨s, s, s⟩ }

def animateBreathe (M : MathOracle) (t : ℚ) (init m : Transform) : Transform :=
  let s := init.scale.x * (1 + M.sin (t * 1.5) * 0.08)
  { m with
    scale := ⟨s, s, s⟩,
    position := { m.position with y := init.position.y + M.sin (t * 1.5) * 0.05 } }

def animateHeartbeat (M : MathOracle) (t : ℚ) (init m : Transform) : Transform :=
  let beat := M.sin (t * 8)
  let s := init.scale.x * (1 + (if beat > 0.7 then 0.15 else if beat > 0.3 then 0.08 else 0))
  { m with scale := ⟨s, s, s⟩ }

def animateGrow (M : MathOracle) (t : ℚ) (init m : Transform) : Transform :=
  let s := init.scale.x * (1 + (M.sin (t * 0.5) + 1) * 0.25)
  { m with scale := ⟨s, s, s⟩ }

def animateShrink (M : MathOracle) (t : ℚ) (init m : Transform) : Transform :=
  let s := init.scale.x * max 0.3 (1 - (M.sin (t * 0.5) + 1) * 0.2)
  { m with scale := ⟨s, s, s⟩ }

def animateShake (M : MathOracle) (t : ℚ) (init m : Transform) : Transform :=
  { m with position := { m.position with x := init.position.x + M.sin (t * 25) * 0.05 } }

def animateWave (M : MathOracle) (t : ℚ) (init m : Transform) : Transform :=
  { m with
    rotation := { m.rotation with z := init.rotation.z + M.sin (t * 2) * 0.4 },
    position := { m.position with y := init.position.y + M.sin (t * 2) * 0.1 } }

def animateSwing (M : MathOracle) (t : ℚ) (init m : Transform) : Transform :=
  { m with rotation := { m.rotation with z := init.rotation.z + M.sin (t * 2) * 0.6 } }

def animateSway (M : MathOracle) (t : ℚ) (init m : Transform) : Transform :=
  { m with
    rotation := { m.rotation with z := init.rotation.z + M.sin (t * 1.5) * 0.2 },
    position := { m.position with x := init.position.x + M.sin (t * 1.5) * 0.1 } }

def animateWobble (M : MathOracle) (t : ℚ) (init m : Transform) : Transform :=
  { m with
    rotation := { m.rotation with
      x := init.rotation.x + M.sin (t * 3) * 0.25,
      z := init.rotation.z + M.cos (t * 3) * 0.25 } }

def animateWalk (M : MathOracle) (t : ℚ) (init m : Transform) : Transform :=
  { m with
    position := { m.position with
      y := init.position.y + |M.sin (t * 4)| * 0.1,
      x := init.position.x + M.sin (t * 4) * 0.05 },
    rotation := { m.rotation with z := init.rotation.z + M.sin (t * 2) * 0.1 } }

def animateRun (M : MathOracle) (t : ℚ) (init m : Transform) : Transform :=
  { m with
    position := { m.position with
      y := init.position.y + |M.sin (t * 8)| * 0.15 + |M.sin (t * 8)| * 0.1 },
    rotation := { m.rotation with
      z := init.rotation.z + M.sin (t * 4) * 0.15,
      x := init.rotation.x + 0.1 } }

def animateDance (M : MathOracle) (t : ℚ) (init m : Transform) : Transform :=
  let s := init.scale.x * (1 + M.sin (t * 6) * 0.08)
  { m with
    rotation := { m.rotation with
      y := init.rotation.y + M.sin (t * 4) * 0.6,
      z := init.rotation.z + M.sin (t * 3) * 0.25 },
    position := { m.position with y := init.position.y + |M.sin (t * 6)| * 0.4 },
    scale := ⟨s, s, s⟩ }

def animateMarch (M : MathOracle) (t : ℚ) (init m : Transform) : Transform :=
  { m with
    position := { m.position with y := init.position.y + |M.sin (t * 3)| * 0.2 },
    rotation := { m.rotation with z := init.rotation.z + M.sin (t * 3) * 0.1 } }

def animateStrut (M : MathOracle) (t : ℚ) (init m : Transform) : Transform :=
  { m with
    position := { m.position with
      y := init.position.y + |M.sin (t * 2.5)| * 0.12,
      x := init.position.x + M.sin (t * 2.5) * 0.15 },
    rotation := { m.rotation with z := init.rotation.z + M.sin (t * 2.5) * 0.2 } }

def animateSpiral (M : MathOracle) (t : ℚ) (init m : Transform) : Transform :=
  { m with
    position := { m.position with
      x := init.position.x + M.cos (t * 2) * 0.3,
      z := init.position.z + M.sin (t * 2) * 0.3,
      y := init.position.y + M.sin (t * 0.5) * 0.3 },
    rotation := { m.rotation with y := init.rotation.y + t * 2 } }

def animateOrbit (M : MathOracle) (t : ℚ) (init m : Transform) : Transform :=
  { m with
    position := { m.position with
      x := init.position.x + M.cos (t * 1.5) * 0.5,
      z := init.position.z + M.sin (t * 1.5) * 0.5 },
    rotation := { m.rotation with y := init.rotation.y + t * 1.5 } }

def animateFly (M : MathOracle) (t : ℚ) (init m : Transform) : Transform :=
  { m with
    position := { m.position with
      y := init.position.y + (M.sin (t * 0.8) * 0.5 + 0.5),
      x := init.position.x + M.sin (t * 2) * 0.2 },
    rotation := { m.rotation with z := init.rotation.z + M.sin (t * 1.5) * 0.15 } }

def animateZigzag (M : MathOracle) (t : ℚ) (init m : Transform) : Transform :=
  { m with
    position := { m.position with
      x := init.position.x + M.sin (t * 4) * 0.4,
      z := init.position.z + M.sin (t * 2) * 0.2 } }

def animatePendulum (M : MathOracle) (t : ℚ) (init m : Transform) : Transform :=
  { m with
    rotation := { m.rotation with z := init.rotation.z + M.sin (t * 2) * 0.8 },
    position := { m.position with y := init.position.y + |M.cos (t * 2)| * 0.2 } }

def animateTornado (M : MathOracle) (t : ℚ) (init m : Transform) : Transform :=
  let radius := M.sin (t * 0.5) * 0.3 + 0.2
  { m with
    position := { m.position with
      x := init.position.x + M.cos (t * 5) * radius,
      z := init.position.z + M.sin (t * 5) * radius,
      y := init.position.y + M.sin (t * 2) * 0.3 },
    rotation := { m.rotation with y := init.rotation.y + t * 8 } }

/-- `animateEarthquake` draws three fresh values from the random stream on
every call (`Math.random()` three times) and returns the advanced stream
index. -/
def animateEarthquake (M : MathOracle) (init m : Transform) (rng : ℕ) :
    Transform × ℕ :=
  let shakeX := (M.random rng - 0.5) * 0.1
  let shakeZ := (M.random (rng + 1) - 0.5) * 0.1
  let shakeY := (M.random (rng + 2) - 0.5) * 0.05
  ({ m with
     position := { m.position with
       x := init.position.x + shakeX,
       z := init.position.z + shakeZ,
       y := init.position.y + shakeY } }, rng + 3)

def animateCrazy (M : MathOracle) (t : ℚ) (init m : Transform) : Transform :=
  let s := init.scale.x * (1 + M.sin (t * 10) * 0.1)
  { m with
    rotation := { m.rotation with
      x := init.rotation.x + M.sin (t * 7) * 0.5,
      y := init.rotation.y + t * 3,
      z := init.rotation.z + M.cos (t * 5) * 0.4 },
    position := { m.position with
      y := init.position.y + |M.sin (t * 8)| * 0.4,
      x := init.position.x + M.sin (t * 6) * 0.3 },
    scale := ⟨s, s, s⟩ }

/-- The bound method stored in the registry for one `AnimId`, applied to
the current time.  Only `earthquake` consumes randomness; every other
method passes the stream index through unchanged. -/
def evalAnimId (M : MathOracle) (a : AnimId) (t : ℚ) (init m : Transform)
    (rng : ℕ) : Transform × ℕ :=
  match a with
  | .rotate => (animateRotate M t init m, rng)
  | .spin => (animateSpin M t init m, rng)
  | .roll => (animateRoll M t init m, rng)
  | .flip => (animateFlip M t init m, rng)
  | .bounce => (animateBounce M t init m, rng)
  | .float => (animateFloat M t init m, rng)
  | .jump => (animateJump M t init m, rng)
  | .hop => (animateHop M t init m, rng)
  | .levitate => (animateLevitate M t init m, rng)
  | .pulse => (animatePulse M t init m, rng)
  | .breathe => (animateBreathe M t init m, rng)
  | .heartbeat => (animateHeartbeat M t init m, rng)
  | .grow => (animateGrow M t init m, rng)
  | .shrink => (animateShrink M t init m, rng)
  | .shake => (animateShake M t init m, rng)
  | .wave => (animateWave M t init m, rng)
  | .swing => (animateSwing M t init m, rng)
  | .sway => (animateSway M t init m, rng)
  | .wobble => (animateWobble M t init m, rng)
  | .walk => (animateWalk M t init m, rng)
  | .run => (animateRun M t init m, rng)
  | .dance => (animateDance M t init m, rng)
  | .march => (animateMarch M t init m, rng)
  | .strut => (animateStrut M t init m, rng)
  | .spiral => (animateSpiral M t init m, rng)
  | .orbit => (animateOrbit M t init m, rng)
  | .fly => (animateFly M t init m, rng)
  | .zigzag => (animateZigzag M t init m, rng)
  | .pendulum => (animatePendulum M t init m, rng)
  | .tornado => (animateTornado M t init m, rng)
  | .earthquake => animateEarthquake M init m rng
  | .crazy => (animateCrazy M t init m, rng)

/-- Dispatch `this.animations[id]`: look the id up in the registry and
apply the stored method.  An id without an own registry entry leaves the
model untouched: for a genuinely absent key this is the `if (animFn)`
false branch in `update`; for the inherited key `constructor` the JS
code calls the `Object` function on the time, which touches nothing
(and for `__proto__` it throws after the time increment, likewise
leaving the model transform as it was). -/
def evalAnim (M : MathOracle) (id : String) (t : ℚ) (init m : Transform)
    (rng : ℕ) : Transform × ℕ :=
  match animTable.lookup id with
  | some a => evalAnimId M a t init m rng
  | none => (m, rng)

/-! ### Animator state and operations -/

/-- The mutable fields of the `Animator` instance, plus the index into the
random stream (`Math.random` is global in JS; the next-unconsumed index is
threaded here). -/
structure AnimState where
  model : Option Transform
  currentAnimation : Option String
  speed : ℚ
  isPlaying : Bool
  time : ℚ
  initialState : Option Transform
  rng : ℕ
deriving DecidableEq, Repr

/-- The constructor: no model, no animation, speed 1, playing, time 0, no
saved rest pose. -/
def initAnimator : AnimState :=
  { model := none, currentAnimation := none, speed := 1, isPlaying := true,
    time := 0, initialState := none, rng := 0 }

/-- `setModel` followed by `saveInitialState`: the rest pose is captured
as an independent copy (`clone()`) of the new model's transform.
`saveInitialState` returns early when the model is null, so the previous
rest pose survives a `setModel(null)`. -/
def setModel (newModel : Option Transform) (s : AnimState) : AnimState :=
  match newModel with
  | some tr => { s with model := some tr, initialState := some tr }
  | none => { s with model := none }

/-- `resetToInitialState`: a no-op unless both a model and a saved rest
pose are present; otherwise copies the rest pose into the model's
position, rotation and scale and zeroes the time. -/
def resetToInitialState (s : AnimState) : AnimState :=
  match s.model, s.initialState with
  | some _, some init => { s with model := some init, time := 0 }
  | _, _ => s

/-- `setAnimation`: parse the prompt; when the parsed name passes the
truthiness check `this.animations[parsed]` (own key or inherited
property, like the resolver's first step) store it, reset the time and
report success, otherwise report failure and change nothing.  Does not
touch `isPlaying`. -/
def setAnimation (animationName : String) (s : AnimState) : Bool × AnimState :=
  match parsePrompt animationName with
  | some parsed =>
    if jsLookupTruthy animationIds parsed then
      (true, { s with currentAnimation := some parsed, time := 0 })
    else (false, s)
  | none => (false, s)

def setSpeed (speed : ℚ) (s : AnimState) : AnimState :=
  { s with speed := speed }

def play (s : AnimState) : AnimState :=
  { s with isPlaying := true }

def pause (s : AnimState) : AnimState :=
  { s with isPlaying := false }

def stop (s : AnimState) : AnimState :=
  resetToInitialState { s with isPlaying := false, currentAnimation := none }

/-- `update(deltaTime)`: a no-op unless a model is attached, an animation
id is set and the animator is playing; otherwise advance the time by
`deltaTime * speed` and apply the current animation to the model.  The
branch with a model but no saved rest pose is unreachable through the
API (`setModel` always captures one); there the JS method would throw
inside the animation function after incrementing the time, leaving the
model untouched, which the second branch reproduces. -/
def update (M : MathOracle) (deltaTime : ℚ) (s : AnimState) : AnimState :=
  match s.model, s.currentAnimation with
  | some m, some id =>
    if s.isPlaying then
      let t := s.time + deltaTime * s.speed
      match s.initialState with
      | some init =>
        let r := evalAnim M id t init m s.rng
        { s with time := t, model := some r.1, rng := r.2 }
      | none => { s with time := t }
    else s
  | _, _ => s

/-! ### Transform components and the per-animation write sets -/

/-- The nine scalar components of a transform. -/
inductive Component where
  | posX | posY | posZ | rotX | rotY | rotZ | scaX | scaY | scaZ
deriving DecidableEq, Repr

/-- Read one scalar component of a transform. -/
def getC (tr : Transform) : Component → ℚ
  | .posX => tr.position.x
  | .posY => tr.position.y
  | .posZ => tr.position.z
  | .rotX => tr.rotation.x
  | .rotY => tr.rotation.y
  | .rotZ => tr.rotation.z
  | .scaX => tr.scale.x
  | .scaY => tr.scale.y
  | .scaZ => tr.scale.z

/-- The components each animation method assigns, read off the source
(`setScalar` and `scale.set` assign all three scale components). -/
def writesId : AnimId → List Component
  | .rotate => [.rotY]
  | .spin => [.rotY]
  | .roll => [.rotX]
  | .flip => [.rotX, .posY]
  | .bounce => [.posY]
  | .float => [.posY]
  | .jump => [.posY, .scaX, .scaY, .scaZ]
  | .hop => [.posY, .posX]
  | .levitate => [.posY, .rotY]
  | .pulse => [.scaX, .scaY, .scaZ]
  | .breathe => [.scaX, .scaY, .scaZ, .posY]
  | .heartbeat => [.scaX, .scaY, .scaZ]
  | .grow => [.scaX, .scaY, .scaZ]
  | .shrink => [.scaX, .scaY, .scaZ]
  | .shake => [.posX]
  | .wave => [.rotZ, .posY]
  | .swing => [.rotZ]
  | .sway => [.rotZ, .posX]
  | .wobble => [.rotX, .rotZ]
  | .walk => [.posY, .rotZ, .posX]
  | .run => [.posY, .rotZ, .rotX]
  | .dance => [.rotY, .posY, .rotZ, .scaX, .scaY, .scaZ]
  | .march => [.posY, .rotZ]
  | .strut => [.posY, .rotZ, .posX]
  | .spiral => [.posX, .posZ, .posY, .rotY]
  | .orbit => [.posX, .posZ, .rotY]
  | .fly => [.posY, .rotZ, .posX]
  | .zigzag => [.posX, .posZ]
  | .pendulum => [.rotZ, .posY]
  | .tornado => [.posX, .posZ, .posY, .rotY]
  | .earthquake => [.posX, .posZ, .posY]
  | .crazy => [.rotX, .rotY, .rotZ, .posY, .posX, .scaX, .scaY, .scaZ]

/-- The write set of the method registered under a string id; an
unregistered id writes nothing. -/
def writes (id : String) : List Component :=
  match animTable.lookup id with
  | some a => writesId a
  | none => []

/-! ### Concrete fixtures used by witnesses and counterexamples -/

/-- A concrete oracle: any computable stand-ins satisfying `sin 0 = 0`
and `cos 0 = 1` suffice for the facts proved at time zero. -/
def oracle0 : MathOracle :=
  { sin := fun _ => 0, cos := fun _ => 1, pi := 3, random := fun _ => 0 }

/-- An oracle whose random stream is not constant: index 0 yields 0,
every later index yields 1/2. -/
def oracleR : MathOracle :=
  { sin := fun _ => 0, cos := fun _ => 1, pi := 3,
    random := fun n => if n = 0 then 0 else 1/2 }

/-- A rest pose with uniform scale. -/
def restPose0 : Transform :=
  ⟨⟨0, 0, 0⟩, ⟨0, 0, 0⟩, ⟨1, 1, 1⟩⟩

/-- A rest pose with a non-uniform scale. -/
def restPoseNU : Transform :=
  ⟨⟨0, 0, 0⟩, ⟨0, 0, 0⟩, ⟨1, 2, 3⟩⟩

/-- A playing animator with a model attached. -/
def playingState : AnimState :=
  { model := some restPose0, currentAnimation := some "bounce", speed := 2,
    isPlaying := true, time := 1, initialState := some restPose0, rng := 0 }

/-- A paused animator with a model attached and no animation selected. -/
def pausedState : AnimState :=
  { model := some restPose0, currentAnimation := none, speed := 1,
    isPlaying := false, time := 2, initialState := some restPose0, rng := 0 }

/-! ### Helper lemmas -/

/-- Every target in the alias table is a registered animation id. -/
theorem aliases_targets_registered :
    aliases.all (fun p => animationIds.contains p.2) = true := by decide

/-- Looking up in a list all of whose targets are registered yields a
registered id. -/
theorem lookup_target_mem {l : List (String × String)} {q a : String}
    (hall : l.all (fun p => animationIds.contains p.2) = true)
    (h : l.lookup q = some a) : animationIds.contains a = true := by
  induction l with
  | nil => simp [List.lookup] at h
  | cons hd tl ih =>
    rw [List.all_cons, Bool.and_eq_true] at hall
    obtain ⟨k, b⟩ := hd
    rw [List.lookup] at h
    split at h
    · cases h; exact hall.1
    · exact ih hall.2 h

/-- An own registry key passes the JS truthiness lookup. -/
theorem contains_jsLookupTruthy {a : String}
    (h : animationIds.contains a = true) :
    jsLookupTruthy animationIds a = true := by
  unfold jsLookupTruthy
  rw [h, Bool.true_or]

/-- Whatever the resolver returns passes the registry truthiness check
that setAnimation repeats (a registered id, or one of the two reachable
inherited property names). -/
theorem parsePrompt_mem {p a : String} (h : parsePrompt p = some a) :
    jsLookupTruthy animationIds a = true := by
  unfold parsePrompt at h
  split at h
  · cases h; assumption
  · split at h
    · rename_i ht
      cases h
      exact contains_jsLookupTruthy
        (lookup_target_mem aliases_targets_registered ht)
    · split at h
      · rename_i pr hf
        cases h
        have hm : pr ∈ aliases := List.mem_of_find?_eq_some hf
        have h2 := List.all_eq_true.mp aliases_targets_registered pr hm
        exact contains_jsLookupTruthy (by simpa using h2)
      · split at h
        · rename_i b hf
          cases h
          exact contains_jsLookupTruthy
            (List.elem_iff.mpr (List.mem_of_find?_eq_some hf))
        · cases h

/-- A successful association-list lookup comes from a pair in the list. -/
theorem lookup_pair_mem {l : List (String × AnimId)} {k : String} {b : AnimId}
    (h : l.lookup k = some b) : (k, b) ∈ l := by
  induction l with
  | nil => simp [List.lookup] at h
  | cons hd tl ih =>
    obtain ⟨k2, b2⟩ := hd
    rw [List.lookup] at h
    split at h
    · rename_i hbeq
      cases h
      have hk : k = k2 := eq_of_beq hbeq
      subst hk
      exact List.mem_cons_self _ _
    · exact List.mem_cons_of_mem _ (ih h)

/-- A key occurring in the key list of an association list looks up to
something. -/
theorem lookup_isSome_of_mem_keys {l : List (String × AnimId)} {k : String}
    (h : k ∈ l.map Prod.fst) : (l.lookup k).isSome = true := by
  induction l with
  | nil => simp at h
  | cons hd tl ih =>
    obtain ⟨k2, b2⟩ := hd
    rw [List.lookup]
    cases hbeq : (k == k2) with
    | true => simp
    | false =>
      simp only [List.map_cons, List.mem_cons] at h
      rcases h with h | h
      · exact absurd (by simp [h] : (k == k2) = true) (by simp [hbeq])
      · exact ih h

/-- Only the key earthquake is registered to the earthquake method. -/
theorem lookup_earthquake {id : String}
    (h : animTable.lookup id = some AnimId.earthquake) : id = "earthquake" := by
  have hm := lookup_pair_mem h
  have hall : ∀ p ∈ animTable, p.2 = AnimId.earthquake → p.1 = "earthquake" := by
    decide
  exact hall _ hm rfl

/-- A component outside a method's write set is passed through
unchanged by that method. -/
theorem evalAnimId_preserves (M : MathOracle) (a : AnimId) (t : ℚ)
    (init m : Transform) (rng : ℕ) (c : Component) (hc : c ∉ writesId a) :
    getC (evalAnimId M a t init m rng).1 c = getC m c := by
  cases a <;> cases c <;> first | rfl | exact absurd (by decide) hc

/-- Every method but earthquake leaves the random stream alone, produces
output independent of the stream position, and is idempotent at a fixed
time and rest pose. -/
theorem evalAnimId_det_idem (M : MathOracle) (a : AnimId)
    (hne : a ≠ AnimId.earthquake) (t : ℚ) (init m : Transform) (rng rng2 : ℕ) :
    (evalAnimId M a t init m rng).2 = rng ∧
    (evalAnimId M a t init m rng2).1 = (evalAnimId M a t init m rng).1 ∧
    (evalAnimId M a t init (evalAnimId M a t init m rng).1 rng2).1 =
      (evalAnimId M a t init m rng).1 := by
  cases a
  all_goals first
    | exact ⟨rfl, rfl, rfl⟩
    | exact absurd rfl hne

/-- Dispatch-level version of write-set preservation, for any string. -/
theorem evalAnim_preserves (M : MathOracle) (id : String) (t : ℚ)
    (init m : Transform) (rng : ℕ) (c : Component) (hc : c ∉ writes id) :
    getC (evalAnim M id t init m rng).1 c = getC m c := by
  unfold writes at hc
  unfold evalAnim
  cases hl : animTable.lookup id with
  | none => rfl
  | some a =>
    rw [hl] at hc
    exact evalAnimId_preserves M a t init m rng c hc

/-- An update of a non-playing animator changes nothing. -/
theorem update_not_playing (M : MathOracle) (dt : ℚ) (s : AnimState)
    (h : s.isPlaying = false) : update M dt s = s := by
  obtain ⟨mo, ca, sp, ip, ti, ins, rg⟩ := s
  obtain rfl : ip = false := h
  cases mo <;> cases ca <;> rfl

/-- A sequence of updates of a non-playing animator changes nothing. -/
theorem foldl_update_not_playing (M : MathOracle) :
    ∀ (dts : List ℚ) (s : AnimState), s.isPlaying = false →
      List.foldl (fun st dt => update M dt st) s dts = s := by
  intro dts
  induction dts with
  | nil => intro s _; rfl
  | cons d rest ih =>
    intro s h
    rw [List.foldl_cons, update_not_playing M d s h, ih s h]

/-- One update leaves every component outside the current animation's
write set alone, and keeps the current animation. -/
theorem update_preserves_field (M : MathOracle) (dt : ℚ) (s : AnimState)
    (id : String) (c : Component) (ha : s.currentAnimation = some id)
    (hc : c ∉ writes id) :
    (update M dt s).model.map (fun m => getC m c) =
      s.model.map (fun m => getC m c) ∧
    (update M dt s).currentAnimation = s.currentAnimation := by
  obtain ⟨mo, ca, sp, ip, ti, ins, rg⟩ := s
  obtain rfl : ca = some id := ha
  cases mo with
  | none => exact ⟨rfl, rfl⟩
  | some m =>
    cases ip with
    | false => exact ⟨rfl, rfl⟩
    | true =>
      cases ins with
      | none => exact ⟨rfl, rfl⟩
      | some init =>
        refine ⟨?_, rfl⟩
        show Option.map (fun m => getC m c)
              (some (evalAnim M id (ti + dt * sp) init m rg).1) =
            Option.map (fun m => getC m c) (some m)
        rw [Option.map_some', Option.map_some',
          evalAnim_preserves M id (ti + dt * sp) init m rg c hc]

/-- A sequence of updates leaves every component outside the current
animation's write set alone. -/
theorem foldl_update_preserves_field (M : MathOracle) (id : String)
    (c : Component) (hc : c ∉ writes id) :
    ∀ (dts : List ℚ) (s : AnimState), s.currentAnimation = some id →
      (List.foldl (fun st dt => update M dt st) s dts).model.map
          (fun m => getC m c) =
        s.model.map (fun m => getC m c) := by
  intro dts
  induction dts with
  | nil => intro s _; rfl
  | cons d rest ih =>
    intro s ha
    have h1 := update_preserves_field M d s id c ha hc
    rw [List.foldl_cons, ih _ (by rw [h1.2, ha]), h1.1]

/-! ### Claims -/

/-- C1 (code bug).  The claim describes the resolver as lowercasing and
trimming its input and returning the first match in strict priority
order - exact canonical id, exact alias, first alias phrase occurring as
a substring, first canonical id occurring as a substring, otherwise
none.  The code deviates at the failing input constructor (and at
proto, written with the double underscores): its first step is the JS
truthiness check on `this.animations[input]`, which also finds the
inherited `Object.prototype` properties, so the resolver returns the
input itself although it is not a registered id, the claimed algorithm
returns none there, and setAnimation on that prompt even reports
success.  On every input whose lowercased trimmed form is not an
inherited property name the resolver does follow the claimed priority
order, a padded upper-case prompt resolves like its lower-case form,
and resolution is a pure function of the input string. -/
theorem parsePrompt_prototype_chain_bug :
    parsePrompt "constructor" = some "constructor" ∧
    parsePrompt "__proto__" = some "__proto__" ∧
    animationIds.contains "constructor" = false ∧
    animationIds.contains "__proto__" = false ∧
    resolveSpec "constructor" = none ∧
    resolveSpec "__proto__" = none ∧
    (setAnimation "constructor" pausedState).1 = true ∧
    (∀ s : String, objectProtoKeys.contains (lowerTrim s) = false →
       parsePrompt s = resolveSpec s) ∧
    parsePrompt "  ROTATE  " = parsePrompt "rotate" ∧
    parsePrompt "rotate" = some "rotate" := by
  refine ⟨by decide, by decide, by decide, by decide, by decide, by decide,
    by decide, ?_, by decide, by decide⟩
  intro s hpk
  unfold parsePrompt resolveSpec
  by_cases h1 : lowerTrim s ∈ animationIds
  · simp [h1, contains_jsLookupTruthy (List.elem_iff.mpr h1)]
  · have h1c : animationIds.contains (lowerTrim s) = false := by
      rw [Bool.eq_false_iff]
      intro hcc
      exact h1 (List.elem_iff.mp hcc)
    have hjs : jsLookupTruthy animationIds (lowerTrim s) = false := by
      unfold jsLookupTruthy
      rw [h1c, hpk, Bool.or_self]
    simp only [hjs, Bool.false_eq_true, if_false, h1]
    cases hl : aliases.lookup (lowerTrim s) with
    | some t => simp [hl]
    | none =>
      simp only [hl, Option.isSome_none, Bool.false_eq_true, if_false]
      cases hf : aliases.find? (fun pr => containsSub (lowerTrim s) pr.1) with
      | some pr => simp [hf]
      | none =>
        simp only [hf, Option.isSome_none, Bool.false_eq_true]
        cases hg : animationIds.find? (fun a => containsSub (lowerTrim s) a) with
        | some a => simp [hg]
        | none => simp [hg]

/-- Witness for C1: a concrete prompt outside the inherited property
names, on which the resolver provably follows the claimed priority
order. -/
theorem parsePrompt_prototype_chain_bug_witness :
    objectProtoKeys.contains (lowerTrim "please make it dance now") = false ∧
    parsePrompt "please make it dance now" =
      resolveSpec "please make it dance now" :=
  ⟨by decide,
   parsePrompt_prototype_chain_bug.2.2.2.2.2.2.2.1 "please make it dance now"
     (by decide)⟩

/-- C2. With a model and rest pose attached, an animation id set and the
animator playing, update(dt) advances the time by exactly dt times the
speed multiplier and recomputes the model's transform by applying the
current animation to the rest pose at the new time; otherwise update(dt)
is a no-op that changes nothing. -/
theorem update_playing_advances_time (M : MathOracle) (dt : ℚ) (s : AnimState) :
    (∀ m id init, s.model = some m → s.currentAnimation = some id →
       s.isPlaying = true → s.initialState = some init →
       update M dt s =
         { s with
           time := s.time + dt * s.speed,
           model := some (evalAnim M id (s.time + dt * s.speed) init m s.rng).1,
           rng := (evalAnim M id (s.time + dt * s.speed) init m s.rng).2 }) ∧
    (s.model = none ∨ s.currentAnimation = none ∨ s.isPlaying = false →
       update M dt s = s) := by
  obtain ⟨mo, ca, sp, ip, ti, ins, rg⟩ := s
  constructor
  · intro m id init hm ha hp hi
    obtain rfl : mo = some m := hm
    obtain rfl : ca = some id := ha
    obtain rfl : ip = true := hp
    obtain rfl : ins = some init := hi
    rfl
  · rintro (h | h | h)
    · obtain rfl : mo = none := h
      cases ca <;> rfl
    · obtain rfl : ca = none := h
      cases mo <;> rfl
    · obtain rfl : ip = false := h
      cases mo <;> cases ca <;> rfl

/-- Witness for C2 at a concrete playing state and a concrete paused
state. -/
theorem update_playing_advances_time_witness :
    update oracle0 1 playingState =
      { playingState with
        time := playingState.time + 1 * playingState.speed,
        model := some (evalAnim oracle0 "bounce"
          (playingState.time + 1 * playingState.speed) restPose0 restPose0
          playingState.rng).1,
        rng := (evalAnim oracle0 "bounce"
          (playingState.time + 1 * playingState.speed) restPose0 restPose0
          playingState.rng).2 } ∧
    update oracle0 1 pausedState = pausedState :=
  ⟨(update_playing_advances_time oracle0 1 playingState).1 restPose0 "bounce"
      restPose0 rfl rfl rfl rfl,
   (update_playing_advances_time oracle0 1 pausedState).2
      (Or.inr (Or.inr rfl))⟩

/-- C3. For every registered animation id except earthquake, evaluation
at a fixed time and rest pose consumes no randomness, does not depend on
the random stream position, and applied a second time to its own output
yields the identical transform; earthquake is the exception, drawing
fresh random jitter on every evaluation, so a second evaluation can
differ from the first. -/
theorem evalAnim_idempotent_except_earthquake :
    (∀ (M : MathOracle) (id : String), id ∈ animationIds →
       id ≠ "earthquake" →
       ∀ (t : ℚ) (init m : Transform) (rng rng2 : ℕ),
         (evalAnim M id t init m rng).2 = rng ∧
         (evalAnim M id t init m rng2).1 = (evalAnim M id t init m rng).1 ∧
         (evalAnim M id t init (evalAnim M id t init m rng).1 rng2).1 =
           (evalAnim M id t init m rng).1) ∧
    (∃ (M : MathOracle) (t : ℚ) (init m : Transform) (rng : ℕ),
       (evalAnim M "earthquake" t init
           (evalAnim M "earthquake" t init m rng).1
           (evalAnim M "earthquake" t init m rng).2).1 ≠
         (evalAnim M "earthquake" t init m rng).1) := by
  constructor
  · intro M id hid hne t init m rng rng2
    obtain ⟨a, ha⟩ := Option.isSome_iff_exists.mp (lookup_isSome_of_mem_keys hid)
    have hane : a ≠ AnimId.earthquake := fun h2 => hne (lookup_earthquake (h2 ▸ ha))
    simp only [evalAnim, ha]
    exact evalAnimId_det_idem M a hane t init m rng rng2
  · refine ⟨oracleR, 0, restPose0, restPose0, 0, ?_⟩
    intro h
    have hx := congrArg (fun tr => tr.position.x) h
    have hx2 : (0 : ℚ) + (oracleR.random 3 - 0.5) * 0.1 =
        0 + (oracleR.random 0 - 0.5) * 0.1 := hx
    simp only [oracleR] at hx2
    norm_num at hx2

/-- Witness for C3 at the pulse animation and concrete inputs. -/
theorem evalAnim_idempotent_witness :
    (evalAnim oracle0 "pulse" 1 restPose0 restPose0 0).2 = 0 ∧
    (evalAnim oracle0 "pulse" 1 restPose0 restPose0 5).1 =
      (evalAnim oracle0 "pulse" 1 restPose0 restPose0 0).1 ∧
    (evalAnim oracle0 "pulse" 1 restPose0
        (evalAnim oracle0 "pulse" 1 restPose0 restPose0 0).1 5).1 =
      (evalAnim oracle0 "pulse" 1 restPose0 restPose0 0).1 :=
  evalAnim_idempotent_except_earthquake.1 oracle0 "pulse" (by decide)
    (by decide) 1 restPose0 restPose0 0 5

/-- C4 counterexample: at a paused animator, setAnimation succeeds, sets
the id and resets the time, yet the animator stays paused
(isPlaying remains false), contradicting the claim that setAnimation
enters the Playing state. -/
theorem setAnimation_does_not_resume :
    (setAnimation "rotate" pausedState).1 = true ∧
    (setAnimation "rotate" pausedState).2.currentAnimation = some "rotate" ∧
    (setAnimation "rotate" pausedState).2.time = 0 ∧
    (setAnimation "rotate" pausedState).2.isPlaying = false :=
  ⟨rfl, rfl, rfl, rfl⟩

/-- C4 (amended). For every prompt the resolver resolves, setAnimation
returns true, stores the resolved id and resets the elapsed time to 0,
leaving every other field - including isPlaying - unchanged; playback is
not (re)started when the animator was paused or stopped. -/
theorem setAnimation_success_sets_id_resets_time (s : AnimState)
    (prompt id : String) (h : parsePrompt prompt = some id) :
    setAnimation prompt s =
      (true, { s with currentAnimation := some id, time := 0 }) := by
  unfold setAnimation
  rw [h]
  simp only [parsePrompt_mem h, if_true]

/-- Witness for C4 (amended) at a paused state. -/
theorem setAnimation_success_witness :
    setAnimation "rotate" pausedState =
      (true, { pausedState with currentAnimation := some "rotate", time := 0 }) :=
  setAnimation_success_sets_id_resets_time pausedState "rotate" "rotate"
    (by decide)

/-- A reachable state with no model but a nonzero elapsed time: attach a
model, select rotate, tick once for five seconds, then detach the
model. -/
def strandedState : AnimState :=
  setModel none (update oracle0 5
    ((setAnimation "rotate" (setModel (some restPose0) initAnimator)).2))

/-- C5 counterexample: with no model attached, stop() does not reset the
elapsed time to 0 (resetToInitialState returns early), contradicting the
claim that stop() resets elapsedTime in any state. -/
theorem stop_keeps_time_without_model :
    strandedState.model = none ∧
    (stop strandedState).time = 0 + 5 * 1 ∧ ((0 : ℚ) + 5 * 1 ≠ 0) :=
  ⟨rfl, rfl, by norm_num⟩

/-- C5 (amended). stop(), called in any state, clears the playing flag
and the current animation id and keeps the rest pose and speed; when a
model and a saved rest pose are attached it also resets elapsedTime to 0
and the model's transform to exactly the rest pose, but with no model
attached the elapsed time and model are left as they were. -/
theorem stop_clears_and_resets (s : AnimState) :
    (stop s).isPlaying = false ∧
    (stop s).currentAnimation = none ∧
    (stop s).initialState = s.initialState ∧
    (stop s).speed = s.speed ∧
    (∀ m init, s.model = some m → s.initialState = some init →
       stop s = { s with
                  isPlaying := false,
                  currentAnimation := none,
                  time := 0,
                  model := some init }) ∧
    (s.model = none → (stop s).time = s.time ∧ (stop s).model = none) := by
  obtain ⟨mo, ca, sp, ip, ti, ins, rg⟩ := s
  refine ⟨?_, ?_, ?_, ?_, ?_, ?_⟩
  · cases mo <;> cases ins <;> rfl
  · cases mo <;> cases ins <;> rfl
  · cases mo <;> cases ins <;> rfl
  · cases mo <;> cases ins <;> rfl
  · intro m init hm hi
    obtain rfl : mo = some m := hm
    obtain rfl : ins = some init := hi
    rfl
  · intro h
    obtain rfl : mo = none := h
    cases ins <;> exact ⟨rfl, rfl⟩

/-- Witness for C5 (amended) at a playing state with a model. -/
theorem stop_clears_and_resets_witness :
    stop playingState =
      { playingState with
        isPlaying := false,
        currentAnimation := none,
        time := 0,
        model := some restPose0 } :=
  (stop_clears_and_resets playingState).2.2.2.2.1 restPose0 restPose0 rfl rfl

/-- C6. When the resolver finds no match - as for the prompt zoop or the
empty string - setAnimation reports false and returns the state entirely
unchanged; failure is a boolean result, not an exception. -/
theorem setAnimation_failure_noop :
    (∀ (s : AnimState) (prompt : String), parsePrompt prompt = none →
       setAnimation prompt s = (false, s)) ∧
    parsePrompt "zoop" = none ∧ parsePrompt "" = none := by
  refine ⟨?_, by decide, by decide⟩
  intro s prompt h
  unfold setAnimation
  rw [h]

/-- Witness for C6 at the prompt zoop and a concrete state. -/
theorem setAnimation_failure_witness :
    setAnimation "zoop" playingState = (false, playingState) :=
  setAnimation_failure_noop.1 playingState "zoop" (by decide)

/-- C7 counterexample: pulse at t = 0 sets all three scale components to
the rest scale's x component (setScalar), so a non-uniform rest scale is
not reproduced even though the oracle satisfies sin 0 = 0. -/
theorem pulse_at_zero_not_rest_scale :
    oracle0.sin 0 = 0 ∧
    (evalAnim oracle0 "pulse" 0 restPoseNU restPoseNU 0).1.scale ≠
      restPoseNU.scale := by
  refine ⟨rfl, ?_⟩
  intro h
  have hy := congrArg Vec3.y h
  have hy2 : (1 : ℚ) * (1 + 0 * 0.15) = 2 := hy
  norm_num at hy2

/-- C7 (amended). Evaluating any registered animation at t = 0 against a
model at its rest pose leaves every component outside the animation's
write set exactly equal to the rest pose; pulse at t = 0 leaves position
and rotation unchanged and, since sin 0 = 0, sets the scale to the
uniform scale built from the rest scale's x component - equal to the
rest scale exactly when the rest scale is uniform. -/
theorem eval_at_zero_preserves_untouched :
    (∀ (M : MathOracle) (id : String), id ∈ animationIds →
       ∀ (rest : Transform) (rng : ℕ) (c : Component), c ∉ writes id →
         getC (evalAnim M id 0 rest rest rng).1 c = getC rest c) ∧
    (∀ M : MathOracle, M.sin 0 = 0 →
       ∀ (rest : Transform) (rng : ℕ),
         (evalAnim M "pulse" 0 rest rest rng).1 =
           { rest with
             scale := ⟨rest.scale.x, rest.scale.x, rest.scale.x⟩ }) := by
  constructor
  · intro M id _ rest rng c hc
    exact evalAnim_preserves M id 0 rest rest rng c hc
  · intro M hs rest rng
    show animatePulse M 0 rest rest = _
    unfold animatePulse
    rw [show (0 : ℚ) * 4 = 0 from by norm_num, hs]
    norm_num

/-- Witness for C7 (amended): bounce leaves the scale alone at t = 0,
and pulse at t = 0 under a sin-0-faithful oracle yields the uniform rest
scale. -/
theorem eval_at_zero_witness :
    getC (evalAnim oracle0 "bounce" 0 restPose0 restPose0 0).1
        Component.scaX = getC restPose0 Component.scaX ∧
    (evalAnim oracle0 "pulse" 0 restPose0 restPose0 0).1 =
      { restPose0 with
        scale := ⟨restPose0.scale.x, restPose0.scale.x, restPose0.scale.x⟩ } :=
  ⟨eval_at_zero_preserves_untouched.1 oracle0 "bounce" (by decide) restPose0 0
      Component.scaX (by decide),
   eval_at_zero_preserves_untouched.2 oracle0 rfl restPose0 0⟩

/-- C8. Time never advances while paused: play() and pause() leave the
elapsed time untouched, and any sequence of updates performed between
pause() and a subsequent play() leaves the elapsed time exactly where it
was before the pause. -/
theorem pause_freezes_time (M : MathOracle) (s : AnimState) (dts : List ℚ) :
    (pause s).time = s.time ∧ (play s).time = s.time ∧
    (play (List.foldl (fun st dt => update M dt st) (pause s) dts)).time =
      s.time := by
  refine ⟨rfl, rfl, ?_⟩
  rw [foldl_update_not_playing M dts (pause s) rfl]
  rfl

/-- C9. The saved rest pose is never mutated by update, play, pause,
stop, setSpeed or setAnimation; it is only replaced wholesale when
setModel attaches a new model, when it is re-captured from the model's
transform. -/
theorem rest_pose_never_mutated (M : MathOracle) (dt v : ℚ) (p : String)
    (s : AnimState) (tr : Transform) :
    (update M dt s).initialState = s.initialState ∧
    (play s).initialState = s.initialState ∧
    (pause s).initialState = s.initialState ∧
    (stop s).initialState = s.initialState ∧
    (setSpeed v s).initialState = s.initialState ∧
    ((setAnimation p s).2).initialState = s.initialState ∧
    (setModel (some tr) s).initialState = some tr := by
  obtain ⟨mo, ca, sp, ip, ti, ins, rg⟩ := s
  refine ⟨?_, rfl, rfl, ?_, rfl, ?_, rfl⟩
  · cases mo <;> cases ca <;> cases ip <;> cases ins <;> rfl
  · cases mo <;> cases ins <;> rfl
  · unfold setAnimation
    cases hpp : parsePrompt p with
    | none => rfl
    | some parsed => cases hb : jsLookupTruthy animationIds parsed <;>
      simp only [hb] <;> simp

/-- C10 (implicit). Switching the active animation does not restore the
model to its rest pose: setAnimation leaves both the model's transform
and the rest pose untouched, and every subsequent tick under the new
animation preserves each transform component outside the new animation's
write set, so such components keep whatever value the previous animation
left there. -/
theorem switching_keeps_stale_components (M : MathOracle) (id : String)
    (c : Component) :
    (∀ (p : String) (s : AnimState),
       ((setAnimation p s).2).model = s.model ∧
       ((setAnimation p s).2).initialState = s.initialState) ∧
    (c ∉ writes id →
       ∀ (dts : List ℚ) (s : AnimState), s.currentAnimation = some id →
         (List.foldl (fun st dt => update M dt st) s dts).model.map
             (fun m => getC m c) =
           s.model.map (fun m => getC m c)) := by
  constructor
  · intro p s
    unfold setAnimation
    cases hpp : parsePrompt p with
    | none => exact ⟨rfl, rfl⟩
    | some parsed => cases hb : jsLookupTruthy animationIds parsed <;>
      simp only [hb] <;> simp
  · intro hc dts s ha
    exact foldl_update_preserves_field M id c hc dts s ha

/-- A state as left by a bounce tick: the model's y position carries a
bounce offset and pulse has just been selected. -/
def afterBounceState : AnimState :=
  { model := some { restPose0 with position := ⟨0, 1/2, 0⟩ },
    currentAnimation := some "pulse", speed := 1, isPlaying := true,
    time := 0, initialState := some restPose0, rng := 0 }

/-- Witness for C10: two pulse ticks keep the y position the bounce left
behind. -/
theorem switching_keeps_stale_components_witness :
    (List.foldl (fun st dt => update oracle0 dt st) afterBounceState
        [1, 1]).model.map (fun m => getC m Component.posY) =
      afterBounceState.model.map (fun m => getC m Component.posY) :=
  (switching_keeps_stale_components oracle0 "pulse" Component.posY).2
    (by decide) [1, 1] afterBounceState rfl

end Animator3D




